import Mathlib

/-!
Shallow embedding of `src/playsound3/playsound3.py`: the backend selection
and playback-dispatch mechanism of the playsound3 library.

External effects are modelled explicitly:
  * running an external process (`subprocess.run`) is an environment function
    from the full command line to a `RunOutcome` (the executable may be
    absent, or it runs and exits with some code);
  * the filesystem, the download cache, the temp-name counter and a ghost
    download counter live in an explicit `IOState` that is threaded through;
  * the process-wide default-backend global is a field of `GlobalState`.
Machine behaviour that the code never branches on (actual audio output,
the GStreamer library bindings used by the legacy backend, the winmm DLL
calls whose error codes the code ignores) is abstracted behind the
environment.
-/

deriving instance DecidableEq for Except

namespace Playsound3

/-- Model of `s.split(sep)` on character lists, as Python's `str.split` with a
one-character separator: splitting the empty string yields one empty group,
and every occurrence of the separator starts a new group. -/
def splitOnChar (sep : Char) : List Char → List (List Char)
  | [] => [[]]
  | c :: rest =>
    let r := splitOnChar sep rest
    if c = sep then [] :: r
    else
      match r with
      | [] => [[c]]
      | g :: gs => (c :: g) :: gs

/-- Model of `sep.join(groups)` on character lists. -/
def joinWithChar (sep : Char) : List (List Char) → List Char
  | [] => []
  | [g] => g
  | g :: gs => g ++ sep :: joinWithChar sep gs

/-- Python exceptions that the embedded code can raise or let propagate.
`playsoundException` mirrors the library's single exception class
`PlaysoundException(Exception)`; the other constructors are the standard
exceptions that `subprocess.run` raises and that the code may propagate. -/
inductive PyExc where
  | playsoundException (msg : String)
  | calledProcessError (cmd : String) (returncode : Int)
  | fileNotFoundError (cmd : String)
  deriving DecidableEq, Repr

/-- Outcome of attempting to start an external process: the executable may be
absent from the path (Python raises `FileNotFoundError`), or the process runs
and exits with a return code. -/
inductive RunOutcome where
  | fileNotFound
  | completed (returncode : Int)
  deriving DecidableEq, Repr

/-- An environment assigning to every full command line the outcome of
running it. -/
def RunEnv : Type := List String → RunOutcome

/-- Model of `subprocess.run(cmd, check=True)`: raises `FileNotFoundError` when the
executable is absent, `CalledProcessError` when the process exits non-zero,
and returns normally on exit code 0. -/
def runChecked (run : RunEnv) (cmd : List String) : Except PyExc Unit :=
  match run cmd with
  | .fileNotFound => .error (.fileNotFoundError (cmd.headD ""))
  | .completed c => if c = 0 then .ok () else .error (.calledProcessError (cmd.headD "") c)

/-- The final path component, as `pathlib.PurePosixPath(p).name`: split on
`/`, drop empty and `.` components, take the last component (or `""`). -/
def pathName (p : String) : String :=
  let parts := ((splitOnChar '/' p.data).map String.mk).filter (fun c => c ≠ "" && c ≠ ".")
  parts.getLastD ""

/-- Model of `pathlib.PurePosixPath(p).suffix`: the substring of the name from its last
dot, but `""` when the last dot is the leading or the trailing character of
the name (so `".wav"` and `"foo."` have no suffix). -/
def pathSuffix (p : String) : String :=
  let name := (pathName p).data
  let pieces := splitOnChar '.' name
  match pieces with
  | [] => ""
  | [_] => ""
  | _ =>
    let last := pieces.getLastD []
    let stem := joinWithChar '.' pieces.dropLast
    if stem ≠ [] && last ≠ [] then String.mk ('.' :: last) else ""

/-- The six player functions of the module, as named strategies (in Python
each is a function `str -> None`; the registry and the selector pass them
around by reference). -/
inductive Player where
  | afplay
  | alsa_mpg123
  | ffplay
  | gst_play
  | gst_legacy
  | mci_winmm
  deriving DecidableEq, Repr

/-- Embedding of `_select_linux_backend`: probe `gst-play-1.0`, then `ffplay`, then
`aplay`, each by running its version query with `check=True` inside a
`try/except FileNotFoundError`; the first probe that returns normally wins,
`FileNotFoundError` is caught and moves on to the next candidate, any other
exception (in particular `CalledProcessError` from a non-zero version query)
propagates, and when all three are absent a `PlaysoundException` is raised. -/
def _select_linux_backend (run : RunEnv) : Except PyExc Player :=
  match runChecked run ["gst-play-1.0", "--version"] with
  | .ok _ => .ok Player.gst_play
  | .error (.fileNotFoundError _) =>
    match runChecked run ["ffplay", "-version"] with
    | .ok _ => .ok Player.ffplay
    | .error (.fileNotFoundError _) =>
      match runChecked run ["aplay", "--version"] with
      | .ok _ => .ok Player.alsa_mpg123
      | .error (.fileNotFoundError _) =>
        .error (.playsoundException "No suitable audio backend found. Install gstreamer or ffmpeg!")
      | .error e => .error e
    | .error e => .error e
  | .error e => .error e

/-- Embedding of `_playsound_alsa`: dispatch on the path's suffix; `.wav` runs `aplay`,
`.mp3` runs `mpg123`, anything else raises `PlaysoundException` without
starting a process. The second component is the list of external commands
invoked. -/
def _playsound_alsa (run : RunEnv) (sound : String) : Except PyExc Unit × List (List String) :=
  let suffix := pathSuffix sound
  if suffix = ".wav" then
    (runChecked run ["aplay", "--quiet", sound], [["aplay", "--quiet", sound]])
  else if suffix = ".mp3" then
    (runChecked run ["mpg123", "-q", sound], [["mpg123", "-q", sound]])
  else
    (.error (.playsoundException ("Backend not supported for " ++ suffix ++ " files")), [])

/-- Embedding of `_playsound_gst_play`: run the GStreamer command-line player. -/
def _playsound_gst_play (run : RunEnv) (sound : String) : Except PyExc Unit × List (List String) :=
  (runChecked run ["gst-play-1.0", "--no-interactive", "--quiet", sound],
   [["gst-play-1.0", "--no-interactive", "--quiet", sound]])

/-- Embedding of `_playsound_ffplay`: run FFmpeg's play utility. -/
def _playsound_ffplay (run : RunEnv) (sound : String) : Except PyExc Unit × List (List String) :=
  (runChecked run ["ffplay", "-nodisp", "-autoexit", "-loglevel", "quiet", sound],
   [["ffplay", "-nodisp", "-autoexit", "-loglevel", "quiet", sound]])

/-- Embedding of `_playsound_afplay`: run the built-in macOS play utility. -/
def _playsound_afplay (run : RunEnv) (sound : String) : Except PyExc Unit × List (List String) :=
  (runChecked run ["afplay", sound], [["afplay", sound]])

/-- Environment for player execution: the process runner, plus the outcome of
the GStreamer-library legacy player, whose body (PyGObject bindings, playbin
state machine) is pure foreign-library interaction abstracted here as an
oracle from the sound path to a result. -/
structure ProcEnv where
  run : RunEnv
  gstLegacyResult : String → Except PyExc Unit

/-- Embedding of `_playsound_gst_legacy`: plays via the GStreamer library bindings; it
starts no external process, and its result is supplied by the environment. -/
def _playsound_gst_legacy (env : ProcEnv) (sound : String) : Except PyExc Unit × List (List String) :=
  (env.gstLegacyResult sound, [])

/-- Embedding of `_playsound_mci_winmm`: issues three MCI commands through the winmm DLL;
`_send_winmm_mci_command` only logs a non-zero error code and never raises,
so the function always returns normally and starts no external process. -/
def _playsound_mci_winmm (_env : ProcEnv) (_sound : String) : Except PyExc Unit × List (List String) :=
  (.ok (), [])

/-- Dispatch a `Player` value to its player function (in Python the registry
holds the function objects themselves). -/
def execPlayer (env : ProcEnv) (p : Player) (sound : String) : Except PyExc Unit × List (List String) :=
  match p with
  | .afplay => _playsound_afplay env.run sound
  | .alsa_mpg123 => _playsound_alsa env.run sound
  | .ffplay => _playsound_ffplay env.run sound
  | .gst_play => _playsound_gst_play env.run sound
  | .gst_legacy => _playsound_gst_legacy env sound
  | .mci_winmm => _playsound_mci_winmm env sound

/-- Embedding of `_BACKEND_MAPPING`: the registry, in the source's key order. -/
def _BACKEND_MAPPING : List (String × Player) :=
  [("afplay", Player.afplay),
   ("alsa_mpg123", Player.alsa_mpg123),
   ("ffplay", Player.ffplay),
   ("gst_play", Player.gst_play),
   ("gst_legacy", Player.gst_legacy),
   ("mci_winmm", Player.mci_winmm)]

/-- Embedding of `AVAILABLE_BACKENDS = list(_BACKEND_MAPPING.keys())`. -/
def AVAILABLE_BACKENDS : List String := _BACKEND_MAPPING.map (fun kv => kv.1)

/-- Dictionary lookup `_BACKEND_MAPPING[name]`. -/
def backendLookup (name : String) : Option Player :=
  (_BACKEND_MAPPING.find? (fun kv => kv.1 == name)).map (fun kv => kv.2)

/-- The mutable I/O world `_prepare_path` touches: the set of existing files,
the `_DOWNLOAD_CACHE` dict (association list in insertion order), the working
directory, a counter generating fresh `NamedTemporaryFile` names, and a ghost
counter of calls to `_download_sound_from_web`. -/
structure IOState where
  fs : List String
  cache : List (String × String)
  cwd : String
  tempCounter : Nat
  downloads : Nat
  deriving DecidableEq, Repr

/-- Dictionary lookup in the download cache. -/
def cacheLookup (cache : List (String × String)) (url : String) : Option String :=
  (cache.find? (fun kv => kv.1 == url)).map (fun kv => kv.2)

/-- Model of `sound.startswith(("http://", "https://"))`. -/
def isUrl (sound : String) : Bool :=
  "http://".data.isPrefixOf sound.data || "https://".data.isPrefixOf sound.data

/-- The name `NamedTemporaryFile(delete=False, prefix="playsound3-", suffix=...)`
hands out: a fresh path in the temp directory with that prefix and suffix. -/
def tempName (n : Nat) (suffix : String) : String :=
  "/tmp/playsound3-" ++ toString n ++ suffix

/-- Embedding of `_download_sound_from_web(link, destination)`: fetches the URL and writes
the destination file. Transport is owned by the host libraries; modelled as
always succeeding, creating the destination file and bumping the ghost
download counter. -/
def _download_sound_from_web (_link destination : String) (st : IOState) : IOState :=
  { st with fs := destination :: st.fs, downloads := st.downloads + 1 }

/-- Model of `Path(p).absolute().as_posix()`: prepend the working directory when the
path is relative, then normalize (collapse repeated slashes, drop `.`
components; `..` is kept, as pathlib does not resolve it). -/
def posixNormalize (cwd p : String) : String :=
  let abs := if "/".data.isPrefixOf p.data then p else cwd ++ "/" ++ p
  let parts := (splitOnChar '/' abs.data).filter (fun c => c ≠ [] && c ≠ ['.'])
  String.mk ('/' :: joinWithChar '/' parts)

/-- Embedding of `_prepare_path(sound)`: for a URL, look it up in the download cache,
downloading to a fresh temp file (suffix taken from the URL) and inserting
the cache entry on a miss, then substitute the cached file name; finally
check existence, raising `PlaysoundException` for a missing file, and return
the absolute slash-normalized path. -/
def _prepare_path (sound : String) (st : IOState) : Except PyExc String × IOState :=
  let (sound, st) :=
    if isUrl sound then
      match cacheLookup st.cache sound with
      | some cached => (cached, st)
      | none =>
        let sound_suffix := pathSuffix sound
        let fname := tempName st.tempCounter sound_suffix
        let st1 := { st with tempCounter := st.tempCounter + 1 }
        let st2 := _download_sound_from_web sound fname st1
        let st3 := { st2 with cache := st2.cache ++ [(sound, fname)] }
        (fname, st3)
    else (sound, st)
  if sound ∈ st.fs then (.ok (posixNormalize st.cwd sound), st)
  else (.error (.playsoundException ("File not found: " ++ sound)), st)

/-- Embedding of `_initialize_default_backend`: branch on `platform.system()`; Windows and
Darwin get their built-in players, anything else runs the Linux probe. The
caller stores the result in the default-backend global on normal return. -/
def _initialize_default_backend (sys : String) (run : RunEnv) : Except PyExc Player :=
  if sys = "Windows" then .ok Player.mci_winmm
  else if sys = "Darwin" then .ok Player.afplay
  else _select_linux_backend run

/-- The inner loop of `_remove_cached_downloads`: `os.remove` each path in
order; a raised `OSError` (modelled by `removeFails`) propagates out of the
`for` loop. Returns the list of paths on which `os.remove` was attempted and
the path whose removal raised, if any. -/
def removeLoop (removeFails : String → Bool) : List String → List String × Option String
  | [] => ([], none)
  | p :: rest =>
    if removeFails p then ([p], some p)
    else
      let r := removeLoop removeFails rest
      (p :: r.1, r.2)

/-- Embedding of `_remove_cached_downloads(cache)`: iterate `cache.values()` deleting each
file. -/
def _remove_cached_downloads (removeFails : String → Bool) (cache : List (String × String)) :
    List String × Option String :=
  removeLoop removeFails (cache.map (fun kv => kv.2))

/-- The process-wide mutable globals `playsound` reads and writes:
`_PLAYSOUND_DEFAULT_BACKEND` and the I/O world. -/
structure GlobalState where
  defaultBackend : Option Player
  io : IOState
  deriving DecidableEq, Repr

/-- Result of a `playsound` call: `unit` is Python's implicit `None` return of
a blocking call; `thread` is the started daemon `Thread` handle of a
non-blocking call, recording the player and path the thread will run. -/
inductive PlayResult where
  | unit
  | thread (player : Player) (path : String)
  deriving DecidableEq, Repr

/-- Embedding of `playsound(sound, block, backend)`: initialize the default backend if the
global is unset (an initialization failure propagates before anything else);
resolve the backend argument against the registry, raising
`PlaysoundException` for an unknown name; prepare the path; then either run
the player synchronously (block) or start a daemon thread and return its
handle (non-blocking). -/
def playsound (sys : String) (env : ProcEnv) (sound : String) (block : Bool)
    (backend : Option String) (st : GlobalState) : Except PyExc PlayResult × GlobalState :=
  match
    ((match st.defaultBackend with
      | some d => Except.ok (d, st)
      | none =>
        match _initialize_default_backend sys env.run with
        | .ok d => Except.ok (d, { st with defaultBackend := some d })
        | .error e => Except.error e) : Except PyExc (Player × GlobalState)) with
  | .error e => (.error e, st)
  | .ok (d, st1) =>
    match
      ((match backend with
        | none => Except.ok d
        | some name =>
          match backendLookup name with
          | some pl => Except.ok pl
          | none =>
            Except.error (.playsoundException ("Unknown backend: " ++ name ++
              ". Available backends: " ++ String.intercalate ", " AVAILABLE_BACKENDS))) : Except PyExc Player) with
    | .error e => (.error e, st1)
    | .ok pl =>
      match _prepare_path sound st1.io with
      | (.error e, io1) => (.error e, { st1 with io := io1 })
      | (.ok path, io1) =>
        let st2 := { st1 with io := io1 }
        if block then
          ((execPlayer env pl path).1.map (fun _ => PlayResult.unit), st2)
        else
          (.ok (PlayResult.thread pl path), st2)

/-! Concrete test environments and states used to instantiate the theorems. -/

/-- Environment where no probed tool is installed. -/
def envAllAbsent : RunEnv := fun _ => RunOutcome.fileNotFound

/-- Environment where every external command exists and exits 0. -/
def envAllOk : RunEnv := fun _ => RunOutcome.completed 0

/-- Environment where `gst-play-1.0 --version` exists but exits 1, and every
other command exits 0. -/
def envGstErrors : RunEnv := fun c =>
  if c = ["gst-play-1.0", "--version"] then RunOutcome.completed 1 else RunOutcome.completed 0

/-- Environment where only `aplay` is installed. -/
def envOnlyAplay : RunEnv := fun c =>
  if c = ["aplay", "--version"] then RunOutcome.completed 0 else RunOutcome.fileNotFound

/-- A legacy-GStreamer oracle that always succeeds. -/
def gstLegacyOk : String → Except PyExc Unit := fun _ => .ok ()

/-- Process environment with no tools installed. -/
def procAllAbsent : ProcEnv := ⟨envAllAbsent, gstLegacyOk⟩

/-- Process environment where every command succeeds. -/
def procAllOk : ProcEnv := ⟨envAllOk, gstLegacyOk⟩

/-- An I/O state with one existing file, an empty cache and no downloads. -/
def io0 : IOState := ⟨["/s/a.wav"], [], "/home", 0, 0⟩

/-- Global state before any backend has been selected. -/
def gs0 : GlobalState := ⟨none, io0⟩

/-- Global state after the default backend has been set to `gst_play`. -/
def gsSet : GlobalState := ⟨some Player.gst_play, io0⟩

/-- An example URL. -/
def urlEx : String := "http://x.com/a.mp3"

/-- A download cache holding two files. -/
def cacheTwo : List (String × String) := [("u1", "a"), ("u2", "b")]

/-- A removal oracle under which deleting file `"a"` raises. -/
def removeFailsA : String → Bool := fun p => p == "a"

/-! Helper lemmas shared by the claim theorems. -/

lemma cacheLookup_append_self (cache : List (String × String)) (url v : String)
    (h : cacheLookup cache url = none) :
    cacheLookup (cache ++ [(url, v)]) url = some v := by
  induction cache with
  | nil => simp [cacheLookup]
  | cons kv rest ih =>
    by_cases hk : kv.1 == url
    · simp [cacheLookup, List.find?, hk] at h
    · simp only [cacheLookup, List.cons_append, List.find?, hk] at h ⊢
      exact ih h

lemma removeLoop_all_ok (removeFails : String → Bool) (l : List String)
    (h : ∀ p ∈ l, removeFails p = false) :
    removeLoop removeFails l = (l, none) := by
  induction l with
  | nil => rfl
  | cons p rest ih =>
    have hp := h p (List.mem_cons_self p rest)
    simp [removeLoop, hp, ih (fun q hq => h q (List.mem_cons_of_mem p hq))]

lemma removeLoop_abort (removeFails : String → Bool) (pre : List String) (p : String)
    (post : List String) (hpre : ∀ q ∈ pre, removeFails q = false) (hp : removeFails p = true) :
    removeLoop removeFails (pre ++ p :: post) = (pre ++ [p], some p) := by
  induction pre with
  | nil => simp [removeLoop, hp]
  | cons q rest ih =>
    have hq := hpre q (List.mem_cons_self q rest)
    simp [removeLoop, hq, ih (fun r hr => hpre r (List.mem_cons_of_mem q hr))]

/-! C1 -/

/-- C1 counterexample: with `gst-play-1.0` installed but its version query
exiting 1, the claim says GStreamer is still selected; the code instead lets
the `CalledProcessError` propagate out of `_select_linux_backend`, so no
backend is selected. -/
theorem C1_counterexample :
    envGstErrors ["gst-play-1.0", "--version"] = RunOutcome.completed 1 ∧
    _select_linux_backend envGstErrors =
      .error (.calledProcessError "gst-play-1.0" 1) ∧
    _select_linux_backend envGstErrors ≠ .ok Player.gst_play := by
  decide

/-- C1 (amended): Linux selection tries `gst-play-1.0`, `ffplay`, `aplay`
strictly in this order; a candidate is selected exactly when its version
query runs and exits 0; a "tool not found" failure eliminates the candidate
and moves on; a version query that runs but exits non-zero aborts selection
with the propagated `CalledProcessError`; when all three are absent the
selection fails with the `NoBackendAvailable` `PlaysoundException`. -/
theorem C1_linux_backend_selection (run : RunEnv) :
    (run ["gst-play-1.0", "--version"] = .completed 0 →
      _select_linux_backend run = .ok Player.gst_play) ∧
    (∀ c : Int, c ≠ 0 → run ["gst-play-1.0", "--version"] = .completed c →
      _select_linux_backend run = .error (.calledProcessError "gst-play-1.0" c)) ∧
    (run ["gst-play-1.0", "--version"] = .fileNotFound →
      (run ["ffplay", "-version"] = .completed 0 →
        _select_linux_backend run = .ok Player.ffplay) ∧
      (∀ c : Int, c ≠ 0 → run ["ffplay", "-version"] = .completed c →
        _select_linux_backend run = .error (.calledProcessError "ffplay" c)) ∧
      (run ["ffplay", "-version"] = .fileNotFound →
        (run ["aplay", "--version"] = .completed 0 →
          _select_linux_backend run = .ok Player.alsa_mpg123) ∧
        (∀ c : Int, c ≠ 0 → run ["aplay", "--version"] = .completed c →
          _select_linux_backend run = .error (.calledProcessError "aplay" c)) ∧
        (run ["aplay", "--version"] = .fileNotFound →
          _select_linux_backend run =
            .error (.playsoundException
              "No suitable audio backend found. Install gstreamer or ffmpeg!")))) := by
  refine ⟨fun h1 => ?_, fun c hc h1 => ?_, fun h1 => ⟨fun h2 => ?_, fun c hc h2 => ?_,
    fun h2 => ⟨fun h3 => ?_, fun c hc h3 => ?_, fun h3 => ?_⟩⟩⟩ <;>
    simp [_select_linux_backend, runChecked, *]

/-- C1 witness: in an environment where only `aplay` is installed, the
amended characterization yields the ALSA backend. -/
theorem C1_witness : _select_linux_backend envOnlyAplay = .ok Player.alsa_mpg123 :=
  (((C1_linux_backend_selection envOnlyAplay).2.2 (by decide)).2.2 (by decide)).1 (by decide)

/-! C2 -/

/-- C2 counterexample: with two cached files where deleting the first
raises, the cleanup hook stops: the second file's deletion is never
attempted, contradicting the claim that an error does not prevent the
remaining deletions. -/
theorem C2_counterexample :
    (_remove_cached_downloads removeFailsA cacheTwo).2 = some "a" ∧
    "b" ∉ (_remove_cached_downloads removeFailsA cacheTwo).1 := by
  decide

/-- C2 (amended): the process-exit hook iterates the cached paths in order,
deleting each underlying file; when no deletion raises, every cached file's
deletion is attempted; but an error while deleting one file propagates out of
the loop, so the files after the first failing one are never attempted. -/
theorem C2_cleanup_behavior (removeFails : String → Bool) (cache : List (String × String)) :
    ((∀ p ∈ cache.map (fun kv => kv.2), removeFails p = false) →
      _remove_cached_downloads removeFails cache = (cache.map (fun kv => kv.2), none)) ∧
    (∀ pre p post, cache.map (fun kv => kv.2) = pre ++ p :: post →
      (∀ q ∈ pre, removeFails q = false) → removeFails p = true →
      _remove_cached_downloads removeFails cache = (pre ++ [p], some p)) := by
  constructor
  · intro h
    exact removeLoop_all_ok removeFails _ h
  · intro pre p post hsplit hpre hp
    unfold _remove_cached_downloads
    rw [hsplit]
    exact removeLoop_abort removeFails pre p post hpre hp

/-- C2 witness: on the two-file cache whose first deletion raises, the
amended characterization computes the abort after the first file. -/
theorem C2_witness : _remove_cached_downloads removeFailsA cacheTwo = (["a"], some "a") :=
  (C2_cleanup_behavior removeFailsA cacheTwo).2 [] "a" ["b"] (by decide) (by decide) (by decide)

/-! C7 -/

/-- C7 counterexample: the path `".wav"` ends in `".wav"`, yet
`pathlib`'s suffix of a leading-dot-only name is empty, so `_playsound_alsa`
raises `PlaysoundException` and invokes no process instead of routing to
`aplay`. -/
theorem C7_counterexample :
    (∃ s : String, ".wav" = s ++ ".wav") ∧
    _playsound_alsa envAllOk ".wav" =
      (.error (.playsoundException "Backend not supported for  files"), []) := by
  exact ⟨⟨"", by decide⟩, by decide⟩

/-- C7 (amended): the ALSA-style player routes a path whose pathlib suffix
(the final component's extension; a leading-dot-only or extension-less name
has none) is `.wav` to `aplay`, suffix `.mp3` to `mpg123`, and for any other
suffix fails with the `UnsupportedFormat` `PlaysoundException` without
invoking any external process. -/
theorem C7_alsa_routing (run : RunEnv) (sound : String) :
    (pathSuffix sound = ".wav" →
      _playsound_alsa run sound =
        (runChecked run ["aplay", "--quiet", sound], [["aplay", "--quiet", sound]])) ∧
    (pathSuffix sound = ".mp3" →
      _playsound_alsa run sound =
        (runChecked run ["mpg123", "-q", sound], [["mpg123", "-q", sound]])) ∧
    (pathSuffix sound ≠ ".wav" → pathSuffix sound ≠ ".mp3" →
      _playsound_alsa run sound =
        (.error (.playsoundException ("Backend not supported for " ++ pathSuffix sound ++ " files")),
         [])) := by
  refine ⟨fun h => ?_, fun h => ?_, fun h1 h2 => ?_⟩ <;> simp [_playsound_alsa, *]

/-- C7 witness: a `.wav` path routes to `aplay` and an `.mp3` path routes to
`mpg123`, by the amended characterization at concrete inputs. -/
theorem C7_witness :
    _playsound_alsa envAllOk "/s/a.wav" =
      (.ok (), [["aplay", "--quiet", "/s/a.wav"]]) ∧
    _playsound_alsa envAllOk "/s/b.mp3" =
      (.ok (), [["mpg123", "-q", "/s/b.mp3"]]) :=
  ⟨(C7_alsa_routing envAllOk "/s/a.wav").1 (by decide),
   (C7_alsa_routing envAllOk "/s/b.mp3").2.1 (by decide)⟩

/-! C3 -/

/-- C3: `playsound` initializes the default backend before looking at the
explicit `backend` argument; on a Linux-like host (`platform.system()`
neither Windows nor Darwin) with none of the probed tools installed, a call
with any explicit backend name — `"gst_legacy"` included — fails with the
no-backend-available `PlaysoundException` and leaves the state untouched,
before the explicit backend is ever consulted. -/
theorem C3_selection_precedes_explicit_backend (env : ProcEnv) (sys sound bname : String)
    (block : Bool) (st : GlobalState)
    (hdb : st.defaultBackend = none)
    (hw : sys ≠ "Windows") (hd : sys ≠ "Darwin")
    (h1 : env.run ["gst-play-1.0", "--version"] = .fileNotFound)
    (h2 : env.run ["ffplay", "-version"] = .fileNotFound)
    (h3 : env.run ["aplay", "--version"] = .fileNotFound) :
    playsound sys env sound block (some bname) st =
      (.error (.playsoundException "No suitable audio backend found. Install gstreamer or ffmpeg!"),
       st) := by
  simp [playsound, _initialize_default_backend, _select_linux_backend, runChecked,
    hdb, hw, hd, h1, h2, h3]

/-- C3 witness: on a bare Linux host, `playsound` with the valid explicit
backend `"gst_legacy"` raises the no-backend-available error. -/
theorem C3_witness :
    playsound "Linux" procAllAbsent "/s/a.wav" true (some "gst_legacy") gs0 =
      (.error (.playsoundException "No suitable audio backend found. Install gstreamer or ffmpeg!"),
       gs0) :=
  C3_selection_precedes_explicit_backend procAllAbsent "Linux" "/s/a.wav" "gst_legacy" true gs0
    rfl (by decide) (by decide) rfl rfl rfl

/-! C4 -/

/-- C4: resolving a URL that is not yet cached downloads exactly once and
inserts a cache entry mapping the URL to the downloaded temp file; resolving
the same URL again returns the identical result with the state unchanged (in
particular no second download); and in general any resolution that hits the
cache leaves the state unchanged. -/
theorem C4_download_once (url : String) (st : IOState)
    (hurl : isUrl url = true) (hmiss : cacheLookup st.cache url = none) :
    (_prepare_path url st).2.downloads = st.downloads + 1 ∧
    cacheLookup (_prepare_path url st).2.cache url =
      some (tempName st.tempCounter (pathSuffix url)) ∧
    _prepare_path url (_prepare_path url st).2 = _prepare_path url st ∧
    (∀ st' c, cacheLookup st'.cache url = some c → (_prepare_path url st').2 = st') := by
  have hfind := cacheLookup_append_self st.cache url (tempName st.tempCounter (pathSuffix url)) hmiss
  have hmem : tempName st.tempCounter (pathSuffix url) ∈
      tempName st.tempCounter (pathSuffix url) :: st.fs := List.mem_cons_self _ _
  have heq : _prepare_path url st =
      (.ok (posixNormalize st.cwd (tempName st.tempCounter (pathSuffix url))),
       { st with fs := tempName st.tempCounter (pathSuffix url) :: st.fs,
                 cache := st.cache ++ [(url, tempName st.tempCounter (pathSuffix url))],
                 tempCounter := st.tempCounter + 1,
                 downloads := st.downloads + 1 }) := by
    simp [_prepare_path, hurl, hmiss, _download_sound_from_web, hmem]
  refine ⟨by rw [heq], by rw [heq]; exact hfind, ?_, ?_⟩
  · rw [heq]
    simp [_prepare_path, hurl, hfind, hmem]
  · intro st' c hc
    by_cases h : c ∈ st'.fs <;> simp [_prepare_path, hurl, hc, h]

/-- C4 witness: the download-once characterization at a concrete URL and an
empty-cache state. -/
theorem C4_witness :
    (_prepare_path urlEx io0).2.downloads = io0.downloads + 1 ∧
    cacheLookup (_prepare_path urlEx io0).2.cache urlEx =
      some (tempName io0.tempCounter (pathSuffix urlEx)) ∧
    _prepare_path urlEx (_prepare_path urlEx io0).2 = _prepare_path urlEx io0 ∧
    (∀ st' c, cacheLookup st'.cache urlEx = some c → (_prepare_path urlEx st').2 = st') :=
  C4_download_once urlEx io0 (by decide) (by decide)

/-! C5 -/

/-- C5: with the default backend already set, an explicit backend name found
in the registry resolves to that entry's player — the non-blocking call's
thread runs exactly that player, and the blocking call's outcome is that
player's outcome; an explicit name outside the registry raises the
unknown-backend `PlaysoundException`, whose message appends the
comma-joined list of all registered backend names. -/
theorem C5_explicit_backend_resolution (sys : String) (env : ProcEnv) (st : GlobalState)
    (d : Player) (sound name : String) (hdb : st.defaultBackend = some d) :
    (∀ pl, backendLookup name = some pl →
      ∀ path io1, _prepare_path sound st.io = (.ok path, io1) →
        playsound sys env sound false (some name) st =
          (.ok (.thread pl path), { st with io := io1 }) ∧
        playsound sys env sound true (some name) st =
          ((execPlayer env pl path).1.map (fun _ => PlayResult.unit), { st with io := io1 })) ∧
    (backendLookup name = none → ∀ block,
      playsound sys env sound block (some name) st =
        (.error (.playsoundException ("Unknown backend: " ++ name ++ ". Available backends: " ++
          String.intercalate ", " AVAILABLE_BACKENDS)), st)) ∧
    String.intercalate ", " AVAILABLE_BACKENDS =
      "afplay, alsa_mpg123, ffplay, gst_play, gst_legacy, mci_winmm" := by
  refine ⟨?_, ?_, by rfl⟩
  · intro pl hpl path io1 hprep
    constructor <;> simp [playsound, hdb, hpl, hprep]
  · intro hnone block
    simp [playsound, hdb, hnone]

/-- C5 witness: `"alsa_mpg123"` resolves to the ALSA player and an unknown
name raises, at concrete inputs. -/
theorem C5_witness :
    playsound "Linux" procAllOk "/s/a.wav" false (some "alsa_mpg123") gsSet =
      (.ok (.thread Player.alsa_mpg123 "/s/a.wav"), { gsSet with io := io0 }) ∧
    playsound "Linux" procAllOk "/s/a.wav" true (some "bogus") gsSet =
      (.error (.playsoundException ("Unknown backend: " ++ "bogus" ++ ". Available backends: " ++
        String.intercalate ", " AVAILABLE_BACKENDS)), gsSet) :=
  ⟨((C5_explicit_backend_resolution "Linux" procAllOk gsSet Player.gst_play "/s/a.wav"
      "alsa_mpg123" rfl).1 Player.alsa_mpg123 (by decide) "/s/a.wav" io0 (by decide)).1,
   (C5_explicit_backend_resolution "Linux" procAllOk gsSet Player.gst_play "/s/a.wav"
      "bogus" rfl).2.1 (by decide) true⟩

/-! C6 -/

/-- C6: once the default backend is stored, every call reuses it — the result
does not depend on the host-OS identity any more (so no re-probe happens),
the stored player survives the call, and a call with no explicit backend
runs exactly the stored player; conversely, a failed Linux selection leaves
the default-backend global unset (the failure is not cached), so a
subsequent call with a tool now present probes again and stores a backend. -/
theorem C6_default_backend_set_once (env env2 : ProcEnv) (sys sound : String)
    (block : Bool) (backend : Option String) (st : GlobalState) :
    (∀ d, st.defaultBackend = some d →
      (∀ sys', playsound sys env sound block backend st =
        playsound sys' env sound block backend st) ∧
      (playsound sys env sound block backend st).2.defaultBackend = some d ∧
      (∀ path io1, _prepare_path sound st.io = (.ok path, io1) →
        playsound sys env sound false none st = (.ok (.thread d path), { st with io := io1 }))) ∧
    (st.defaultBackend = none → sys ≠ "Windows" → sys ≠ "Darwin" →
      env.run ["gst-play-1.0", "--version"] = .fileNotFound →
      env.run ["ffplay", "-version"] = .fileNotFound →
      env.run ["aplay", "--version"] = .fileNotFound →
      playsound sys env sound block backend st =
        (.error (.playsoundException
          "No suitable audio backend found. Install gstreamer or ffmpeg!"), st) ∧
      (env2.run ["gst-play-1.0", "--version"] = .completed 0 →
        (playsound sys env2 sound block backend st).2.defaultBackend = some Player.gst_play)) := by
  constructor
  · intro d hdb
    refine ⟨fun sys' => ?_, ?_, fun path io1 hprep => ?_⟩
    · simp [playsound, hdb]
    · simp only [playsound, hdb]
      repeat' split
      all_goals simp [hdb]
    · simp [playsound, hdb, hprep]
  · intro hdb hw hd h1 h2 h3
    constructor
    · simp [playsound, _initialize_default_backend, _select_linux_backend, runChecked,
        hdb, hw, hd, h1, h2, h3]
    · intro hgst
      have hsel : _select_linux_backend env2.run = .ok Player.gst_play := by
        simp [_select_linux_backend, runChecked, hgst]
      have hinit : _initialize_default_backend sys env2.run = .ok Player.gst_play := by
        simp [_initialize_default_backend, hw, hd, hsel]
      simp only [playsound, hdb, hinit]
      repeat' split
      all_goals simp

/-- C6 witness: on a bare Linux host the call fails and caches nothing; the
next call against an environment with GStreamer installed stores it. -/
theorem C6_witness :
    playsound "Linux" procAllAbsent "/s/a.wav" true (some "gst_legacy") gs0 =
      (.error (.playsoundException
        "No suitable audio backend found. Install gstreamer or ffmpeg!"), gs0) ∧
    (playsound "Linux" procAllOk "/s/a.wav" true (some "gst_legacy") gs0).2.defaultBackend =
      some Player.gst_play :=
  have h := (C6_default_backend_set_once procAllAbsent procAllOk "Linux" "/s/a.wav" true
    (some "gst_legacy") gs0).2 rfl (by decide) (by decide) rfl rfl rfl
  ⟨h.1, h.2 rfl⟩

/-! C8 -/

/-- C8: `_prepare_path` either returns the absolute slash-normalized form of
a path that exists in the resulting filesystem state, or fails with the
file-not-found `PlaysoundException`; in particular a non-URL reference whose
path does not exist fails with `File not found: <path>`. -/
theorem C8_prepare_path_contract (sound : String) (st : IOState) :
    (∀ r st1, _prepare_path sound st = (.ok r, st1) →
      ∃ p, p ∈ st1.fs ∧ r = posixNormalize st.cwd p) ∧
    (∀ e st1, _prepare_path sound st = (.error e, st1) →
      ∃ m, e = .playsoundException ("File not found: " ++ m)) ∧
    (isUrl sound = false → sound ∉ st.fs →
      (_prepare_path sound st).1 =
        .error (.playsoundException ("File not found: " ++ sound))) := by
  have main : ∀ r st1, _prepare_path sound st = (r, st1) →
      (∃ p, p ∈ st1.fs ∧ r = .ok (posixNormalize st.cwd p)) ∨
      (∃ m, r = .error (.playsoundException ("File not found: " ++ m))) := by
    intro r st1 h
    by_cases hu : isUrl sound
    · rcases hc : cacheLookup st.cache sound with _ | cached
      · have hm : tempName st.tempCounter (pathSuffix sound) ∈
            tempName st.tempCounter (pathSuffix sound) :: st.fs := List.mem_cons_self _ _
        simp [_prepare_path, hu, hc, _download_sound_from_web, hm] at h
        exact Or.inl ⟨tempName st.tempCounter (pathSuffix sound),
          by rw [← h.2]; simp, h.1.symm⟩
      · by_cases hm : cached ∈ st.fs
        · simp [_prepare_path, hu, hc, hm] at h
          exact Or.inl ⟨cached, by rw [← h.2]; exact hm, h.1.symm⟩
        · simp [_prepare_path, hu, hc, hm] at h
          exact Or.inr ⟨cached, h.1.symm⟩
    · by_cases hm : sound ∈ st.fs
      · simp [_prepare_path, hu, hm] at h
        exact Or.inl ⟨sound, by rw [← h.2]; exact hm, h.1.symm⟩
      · simp [_prepare_path, hu, hm] at h
        exact Or.inr ⟨sound, h.1.symm⟩
  refine ⟨?_, ?_, ?_⟩
  · intro r st1 h
    rcases main (.ok r) st1 h with ⟨p, hp, hr⟩ | ⟨m, hr⟩
    · exact ⟨p, hp, by injection hr⟩
    · cases hr
  · intro e st1 h
    rcases main (.error e) st1 h with ⟨p, _, hr⟩ | ⟨m, hr⟩
    · cases hr
    · exact ⟨m, by injection hr⟩
  · intro hu hm
    simp [_prepare_path, hu, hm]

/-- C8 witness: a nonexistent local path fails with `File not found`. -/
theorem C8_witness :
    (_prepare_path "missing.wav" io0).1 =
      .error (.playsoundException ("File not found: " ++ "missing.wav")) :=
  (C8_prepare_path_contract "missing.wav" io0).2.2 (by decide) (by decide)

/-! C9 -/

/-- C9: with the default backend set and the path prepared, a blocking call
runs the player in the calling context — its result is exactly the player's
result mapped to the `None` return, so success returns nothing and a player
failure propagates as that same exception — while a non-blocking call
returns immediately with the started thread handle for that player and path,
its result `ok` regardless of what the player does inside the thread. -/
theorem C9_block_semantics (sys : String) (env : ProcEnv) (st : GlobalState) (d : Player)
    (sound path : String) (io1 : IOState)
    (hdb : st.defaultBackend = some d)
    (hprep : _prepare_path sound st.io = (.ok path, io1)) :
    playsound sys env sound true none st =
      ((execPlayer env d path).1.map (fun _ => PlayResult.unit), { st with io := io1 }) ∧
    ((execPlayer env d path).1 = .ok () →
      playsound sys env sound true none st = (.ok PlayResult.unit, { st with io := io1 })) ∧
    (∀ e, (execPlayer env d path).1 = .error e →
      playsound sys env sound true none st = (.error e, { st with io := io1 })) ∧
    playsound sys env sound false none st =
      (.ok (.thread d path), { st with io := io1 }) := by
  refine ⟨by simp [playsound, hdb, hprep], fun hok => ?_, fun e herr => ?_,
    by simp [playsound, hdb, hprep]⟩
  · simp [playsound, hdb, hprep, hok, Except.map]
  · simp [playsound, hdb, hprep, herr, Except.map]

/-- C9 witness: with everything installed, the blocking call returns `None`
and the non-blocking call returns the thread handle, at concrete inputs. -/
theorem C9_witness :
    playsound "Linux" procAllOk "/s/a.wav" true none gsSet =
      (.ok PlayResult.unit, { gsSet with io := io0 }) ∧
    playsound "Linux" procAllOk "/s/a.wav" false none gsSet =
      (.ok (.thread Player.gst_play "/s/a.wav"), { gsSet with io := io0 }) :=
  have h := C9_block_semantics "Linux" procAllOk gsSet Player.gst_play "/s/a.wav" "/s/a.wav"
    io0 rfl (by decide)
  ⟨h.2.1 (by decide), h.2.2.2⟩

/-! C10 -/

/-- C10: the four domain error kinds — unknown backend, file not found, no
backend available, unsupported format — are all raised as the single
exception type `PlaysoundException` (the `playsoundException` constructor),
distinguished only by their message text. -/
theorem C10_single_exception_type :
    (∀ sys env st (d : Player) sound name block, st.defaultBackend = some d →
      backendLookup name = none →
      (playsound sys env sound block (some name) st).1 =
        .error (.playsoundException ("Unknown backend: " ++ name ++ ". Available backends: " ++
          String.intercalate ", " AVAILABLE_BACKENDS))) ∧
    (∀ sound (st : IOState), isUrl sound = false → sound ∉ st.fs →
      (_prepare_path sound st).1 =
        .error (.playsoundException ("File not found: " ++ sound))) ∧
    (∀ run : RunEnv, run ["gst-play-1.0", "--version"] = .fileNotFound →
      run ["ffplay", "-version"] = .fileNotFound →
      run ["aplay", "--version"] = .fileNotFound →
      _select_linux_backend run =
        .error (.playsoundException
          "No suitable audio backend found. Install gstreamer or ffmpeg!")) ∧
    (∀ (run : RunEnv) sound, pathSuffix sound ≠ ".wav" → pathSuffix sound ≠ ".mp3" →
      (_playsound_alsa run sound).1 =
        .error (.playsoundException
          ("Backend not supported for " ++ pathSuffix sound ++ " files"))) := by
  refine ⟨fun sys env st d sound name block hdb hnone => ?_,
    fun sound st hu hm => ?_, fun run h1 h2 h3 => ?_, fun run sound h1 h2 => ?_⟩
  · simp [playsound, hdb, hnone]
  · simp [_prepare_path, hu, hm]
  · simp [_select_linux_backend, runChecked, h1, h2, h3]
  · simp [_playsound_alsa, h1, h2]

/-- C10 witness: each of the four error kinds, raised at a concrete input,
is a `playsoundException` with its message. -/
theorem C10_witness :
    (playsound "Linux" procAllOk "/s/a.wav" true (some "bogus") gsSet).1 =
      .error (.playsoundException ("Unknown backend: " ++ "bogus" ++ ". Available backends: " ++
        String.intercalate ", " AVAILABLE_BACKENDS)) ∧
    (_prepare_path "missing.mp3" io0).1 =
      .error (.playsoundException ("File not found: " ++ "missing.mp3")) ∧
    _select_linux_backend envAllAbsent =
      .error (.playsoundException
        "No suitable audio backend found. Install gstreamer or ffmpeg!") ∧
    (_playsound_alsa envAllOk "/s/c.ogg").1 =
      .error (.playsoundException
        ("Backend not supported for " ++ pathSuffix "/s/c.ogg" ++ " files")) :=
  ⟨C10_single_exception_type.1 "Linux" procAllOk gsSet Player.gst_play "/s/a.wav" "bogus" true
      rfl (by decide),
   C10_single_exception_type.2.1 "missing.mp3" io0 (by decide) (by decide),
   C10_single_exception_type.2.2.1 envAllAbsent rfl rfl rfl,
   C10_single_exception_type.2.2.2 envAllOk "/s/c.ogg" (by decide) (by decide)⟩

end Playsound3
